import Mathlib

/-!
Verification of the anonymous-credential proof-verifier boundary layer
(`src/libindy-crypto/src/ffi/cl/verifier.rs`) and its underlying
verification core.

The repository ships only the C-ABI marshalling layer; the core engine
(`Verifier`, `ProofVerifier`, the challenge accumulator) is an external
collaborator described by the specification.  Definitions for the core are
therefore modelled from the spec (each marked as such in its doc comment),
while the three FFI entry points are embedded directly from the Rust source.

Pointers are modelled as `Option` values (`none` = null pointer), the
out-parameter `valid_p` as a boolean cell plus a validity flag, and the
heap slot that holds a boxed `ProofVerifier` as an `Option ProofVerifier`
(`none` = freed / never allocated).
-/

set_option autoImplicit false

namespace IndyCrypto

/-- Error codes crossing the C ABI, as used by `ffi/cl/verifier.rs`.
`CommonInvalidParamN` is produced by the `check_useful_*` macros for a null
pointer in argument position `N`; the remaining constructors are the images
of core errors under `to_error_code`. -/
inductive ErrorCode where
  | Success
  | CommonInvalidParam1
  | CommonInvalidParam2
  | CommonInvalidParam3
  | CommonInvalidParam4
  | CommonInvalidParam5
  | AttributeNotFoundInSchema
  | RevocationParamsMismatch
  | ProofStructureMismatch
  | VerifierAlreadyConsumed
  deriving DecidableEq, Repr

/-- Modelled from the spec: the error taxonomy of the verification core
(§4.2, §4.5, §7). -/
inductive CryptoError where
  | AttributeNotFoundInSchema
  | RevocationParamsMismatch
  | ProofStructureMismatch
  | VerifierAlreadyConsumed
  deriving DecidableEq, Repr

/-- `to_error_code`: maps a core error to the error code handed to the
foreign caller. -/
def to_error_code : CryptoError → ErrorCode
  | .AttributeNotFoundInSchema => .AttributeNotFoundInSchema
  | .RevocationParamsMismatch => .RevocationParamsMismatch
  | .ProofStructureMismatch => .ProofStructureMismatch
  | .VerifierAlreadyConsumed => .VerifierAlreadyConsumed

/-- A single-use random challenge value (opaque big number, §3). -/
structure Nonce where
  val : Nat
  deriving DecidableEq, Repr

/-- Ordered set of attribute names a credential binds (§3). -/
structure CredentialSchema where
  attrs : List String
  deriving DecidableEq, Repr

/-- A predicate entry of a sub-proof request: an attribute proven to
satisfy a bound without being revealed (§3, §4.3). -/
structure Predicate where
  attrName : String
  value : Nat
  deriving DecidableEq, Repr

/-- Which attributes must be revealed and which only proven by predicate
(§3). -/
structure SubProofRequest where
  revealedAttrs : List String
  predicates : List Predicate
  deriving DecidableEq, Repr

/-- Issuer public verification key (opaque, §3). -/
structure CredentialPublicKey where
  key : Nat
  deriving DecidableEq, Repr

/-- Public revocation key component (opaque, §3). -/
structure RevocationKeyPublic where
  key : Nat
  deriving DecidableEq, Repr

/-- Public accumulator state of a revocation registry (opaque, §3). -/
structure RevocationRegistry where
  accum : Nat
  deriving DecidableEq, Repr

/-- One credential's share of a presentation proof: disclosed values,
primary response scalars, and optional non-revocation responses (§3). -/
structure SubProof where
  revealedValues : List Nat
  primaryResponses : List Nat
  nonRevocResponses : Option (List Nat)
  deriving DecidableEq, Repr

/-- Holder-produced presentation: per-credential sub-proofs plus the
aggregated challenge the holder computed (§3). -/
structure Proof where
  subProofs : List SubProof
  challenge : Nat
  deriving DecidableEq, Repr

/-- One verification context registered with the verifier (§4.2). -/
structure VerifierEntry where
  keyId : String
  subProofRequest : SubProofRequest
  credentialSchema : CredentialSchema
  credentialPubKey : CredentialPublicKey
  revKeyPub : Option RevocationKeyPublic
  revReg : Option RevocationRegistry
  deriving DecidableEq, Repr

/-- Modelled from the spec: the `ProofVerifier` state machine
`Building → Consumed` (§3, §4.5). `Building` carries the ordered registry
of sub-proof-request contexts. -/
inductive ProofVerifier where
  | Building (entries : List VerifierEntry)
  | Consumed
  deriving DecidableEq, Repr

/-- Modelled from the spec: the fixed, deterministic, domain-separated
hash-to-scalar over an ordered commitment list (§4.1).  The concrete hash
lives in the external arithmetic library; only its determinism matters
here, so a concrete fold stands in for it. -/
def hashToScalar (xs : List Nat) : Nat :=
  xs.foldl (fun acc x => acc * 1000003 + x + 1) 5381

/-- The attribute names a sub-proof request references, all of which must
exist in the schema (§4.2). -/
def referencedAttrs (spr : SubProofRequest) : List String :=
  spr.revealedAttrs ++ spr.predicates.map (fun p => p.attrName)

/-- Modelled from the spec: the ordered commitments one (entry, sub-proof)
pair contributes to the challenge transcript — disclosed-attribute
commitments, then predicate commitments, then the signature commitment
(§4.3), then the non-revocation commitment when revocation parameters are
present (§4.4). -/
def subProofCommitments (e : VerifierEntry) (sp : SubProof) : List Nat :=
  let disclosed := sp.revealedValues.map (fun v => hashToScalar [e.credentialPubKey.key, v])
  let predicateCs := e.subProofRequest.predicates.map
    (fun p => hashToScalar [e.credentialPubKey.key, p.value])
  let signatureC := [hashToScalar (e.credentialPubKey.key :: sp.primaryResponses)]
  let nonRevocC := match e.revKeyPub, e.revReg, sp.nonRevocResponses with
    | some rk, some rr, some resp => [hashToScalar (rk.key :: rr.accum :: resp)]
    | _, _, _ => []
  disclosed ++ predicateCs ++ signatureC ++ nonRevocC

/-- Modelled from the spec: the recomputed challenge — all sub-proof
commitments in strict registration order, finalized with the nonce
(§4.1, §4.5 steps 2–3). -/
def computeChallenge (entries : List VerifierEntry) (p : Proof) (n : Nonce) : Nat :=
  hashToScalar ((List.zipWith subProofCommitments entries p.subProofs).flatten ++ [n.val])

/-- Modelled from the spec: `Verifier::new_proof_verifier` never fails
except on allocation failure (§6); allocation is outside the model, so it
always yields a fresh empty verifier. -/
def Verifier.new_proof_verifier : Except CryptoError ProofVerifier :=
  Except.ok (ProofVerifier.Building [])

/-- Modelled from the spec: core `add_sub_proof_request` (§4.2).  Checks
that every referenced attribute exists in the schema, that revocation
parameters are both present or both absent, and appends the context; a
consumed verifier rejects any further call (§4.5 step 5). -/
def ProofVerifier.add_sub_proof_request (st : ProofVerifier) (key_id : String)
    (spr : SubProofRequest) (schema : CredentialSchema) (pk : CredentialPublicKey)
    (rev_key_pub : Option RevocationKeyPublic) (rev_reg : Option RevocationRegistry) :
    Except CryptoError ProofVerifier :=
  match st with
  | .Consumed => Except.error CryptoError.VerifierAlreadyConsumed
  | .Building entries =>
    if (referencedAttrs spr).all (fun a => schema.attrs.contains a) then
      if rev_key_pub.isSome == rev_reg.isSome then
        Except.ok (ProofVerifier.Building
          (entries ++ [⟨key_id, spr, schema, pk, rev_key_pub, rev_reg⟩]))
      else Except.error CryptoError.RevocationParamsMismatch
    else Except.error CryptoError.AttributeNotFoundInSchema

/-- Modelled from the spec: the verification outcome over a registry
(§4.5 steps 1–4): sub-proof count must match the registry, and validity is
exactly equality of the recomputed challenge with the embedded one. -/
def verifyResult (entries : List VerifierEntry) (p : Proof) (n : Nonce) :
    Except CryptoError Bool :=
  if p.subProofs.length == entries.length then
    Except.ok (computeChallenge entries p n == p.challenge)
  else Except.error CryptoError.ProofStructureMismatch

/-- Modelled from the spec: core `verify` (§4.5).  The sole transition to
`Consumed`; a consumed verifier fails with `VerifierAlreadyConsumed`. -/
def ProofVerifier.verify (st : ProofVerifier) (p : Proof) (n : Nonce) :
    Except CryptoError Bool × ProofVerifier :=
  match st with
  | .Consumed => (Except.error CryptoError.VerifierAlreadyConsumed, .Consumed)
  | .Building entries => (verifyResult entries p n, .Consumed)

/-- FFI `indy_crypto_cl_verifier_new_proof_verifier` (verifier.rs:19-38).
The argument models validity of the `proof_verifier_p` out-pointer; the
second component of the result is what the call stored through it. -/
def indy_crypto_cl_verifier_new_proof_verifier (proof_verifier_p_valid : Bool) :
    ErrorCode × Option ProofVerifier :=
  if proof_verifier_p_valid then
    match Verifier.new_proof_verifier with
    | Except.ok pv => (ErrorCode.Success, some pv)
    | Except.error err => (to_error_code err, none)
  else (ErrorCode.CommonInvalidParam1, none)

/-- FFI `indy_crypto_cl_proof_verifier_add_sub_proof_request`
(verifier.rs:41-76).  `Option` arguments model nullable pointers; the
second component of the result is the verifier state behind the handle
after the call.  Faithful to the source, the success/error match at
lines 64-72 only feeds the trace call: line 75 returns
`ErrorCode::Success` unconditionally once the pointer checks pass. -/
def indy_crypto_cl_proof_verifier_add_sub_proof_request
    (proof_verifier : Option ProofVerifier) (key_id : Option String)
    (sub_proof_request : Option SubProofRequest) (credential_schema : Option CredentialSchema)
    (credential_pub_key : Option CredentialPublicKey)
    (rev_key_pub : Option RevocationKeyPublic) (rev_reg : Option RevocationRegistry) :
    ErrorCode × Option ProofVerifier :=
  match proof_verifier with
  | none => (ErrorCode.CommonInvalidParam1, none)
  | some pv =>
    match key_id with
    | none => (ErrorCode.CommonInvalidParam2, some pv)
    | some kid =>
      match sub_proof_request with
      | none => (ErrorCode.CommonInvalidParam3, some pv)
      | some spr =>
        match credential_schema with
        | none => (ErrorCode.CommonInvalidParam4, some pv)
        | some cs =>
          match credential_pub_key with
          | none => (ErrorCode.CommonInvalidParam5, some pv)
          | some cpk =>
            match pv.add_sub_proof_request kid spr cs cpk rev_key_pub rev_reg with
            | Except.ok pv2 => (ErrorCode.Success, some pv2)
            | Except.error _err => (ErrorCode.Success, some pv)

/-- FFI `indy_crypto_cl_proof_verifier_verify` (verifier.rs:87-116).
`valid_p_valid` models validity of the `valid_p` out-pointer and
`valid_cell` the boolean previously stored there.  The result is the
returned error code, the heap slot of the verifier handle after the call
(`none` = the box was reconstituted via `Box::from_raw` and dropped), and
the final content of the `valid_p` cell. -/
def indy_crypto_cl_proof_verifier_verify (proof_verifier : Option ProofVerifier)
    (proof : Option Proof) (nonce : Option Nonce) (valid_p_valid : Bool)
    (valid_cell : Bool) : ErrorCode × Option ProofVerifier × Bool :=
  match proof_verifier with
  | none => (ErrorCode.CommonInvalidParam1, none, valid_cell)
  | some pv =>
    match proof with
    | none => (ErrorCode.CommonInvalidParam2, some pv, valid_cell)
    | some p =>
      match nonce with
      | none => (ErrorCode.CommonInvalidParam3, some pv, valid_cell)
      | some n =>
        if valid_p_valid then
          match (pv.verify p n).1 with
          | Except.ok valid => (ErrorCode.Success, none, valid)
          | Except.error err => (to_error_code err, none, valid_cell)
        else (ErrorCode.CommonInvalidParam4, some pv, valid_cell)

/-- One recorded `addSubProofRequest` call, used to state determinism over
a registered sequence. -/
structure AddRequest where
  keyId : String
  subProofRequest : SubProofRequest
  credentialSchema : CredentialSchema
  credentialPubKey : CredentialPublicKey
  revKeyPub : Option RevocationKeyPublic
  revReg : Option RevocationRegistry
  deriving DecidableEq, Repr

/-- Register a sequence of sub-proof requests into a fresh verifier. -/
def registerAll (reqs : List AddRequest) : Except CryptoError ProofVerifier :=
  reqs.foldlM
    (fun st r => st.add_sub_proof_request r.keyId r.subProofRequest r.credentialSchema
      r.credentialPubKey r.revKeyPub r.revReg)
    (ProofVerifier.Building [])

/-! Concrete inputs used by counterexamples and witnesses. -/

/-- An attribute name used in concrete instances. -/
def ageAttr : String := "age"

/-- Another attribute name used in concrete instances. -/
def nameAttr : String := "name"

/-- A key identifier used in concrete instances. -/
def keyIdW : String := "issuer-key-1"

/-- A schema binding only `nameAttr` (so `ageAttr` is absent from it). -/
def schemaNoAge : CredentialSchema := ⟨[nameAttr]⟩

/-- A sub-proof request asking to reveal `ageAttr`. -/
def sprAge : SubProofRequest := ⟨[ageAttr], []⟩

/-- A sub-proof request asking to reveal `nameAttr`. -/
def sprName : SubProofRequest := ⟨[nameAttr], []⟩

/-- A concrete issuer public key. -/
def pkW : CredentialPublicKey := ⟨7⟩

/-- A concrete revocation public key. -/
def revKeyPubW : RevocationKeyPublic := ⟨3⟩

/-- The empty proof with embedded challenge 0. -/
def pEmpty : Proof := ⟨[], 0⟩

/-- A concrete nonce. -/
def nW : Nonce := ⟨0⟩

/-- C1: at a concrete input with all pointers valid where the core
`add_sub_proof_request` fails with `AttributeNotFoundInSchema` (the
requested attribute `age` is absent from the schema), the FFI entry point
nevertheless returns `Success` to the caller: verifier.rs:75 returns
`ErrorCode::Success` unconditionally, discarding the error computed at
lines 64-72. -/
theorem c1_add_sub_proof_request_swallows_error :
    ProofVerifier.add_sub_proof_request (.Building []) keyIdW sprAge schemaNoAge pkW none none
      = Except.error CryptoError.AttributeNotFoundInSchema ∧
    (indy_crypto_cl_proof_verifier_add_sub_proof_request (some (.Building [])) (some keyIdW)
      (some sprAge) (some schemaNoAge) (some pkW) none none).1 = ErrorCode.Success :=
  ⟨rfl, rfl⟩

/-- C5: at a concrete input where exactly one revocation parameter is
supplied (`rev_key_pub` present, `rev_reg` absent), the core fails with
`RevocationParamsMismatch`, but the FFI entry point returns `Success` to
the caller (verifier.rs:75), so the error code never reaches the caller. -/
theorem c5_revocation_mismatch_error_swallowed :
    ProofVerifier.add_sub_proof_request (.Building []) keyIdW sprName schemaNoAge pkW
      (some revKeyPubW) none = Except.error CryptoError.RevocationParamsMismatch ∧
    (indy_crypto_cl_proof_verifier_add_sub_proof_request (some (.Building [])) (some keyIdW)
      (some sprName) (some schemaNoAge) (some pkW) (some revKeyPubW) none).1
      = ErrorCode.Success :=
  ⟨rfl, rfl⟩

/-- C2: for every registered sub-proof-request sequence, proof and nonce
whose sub-proof count matches the registry, `verify` returns
`valid = (recomputed challenge == embedded challenge)` — challenge
equality is the entire verification predicate, with a boolean (never
partial) outcome. -/
theorem c2_verify_is_challenge_equality (es : List VerifierEntry) (p : Proof) (n : Nonce)
    (h : p.subProofs.length = es.length) :
    ProofVerifier.verify (.Building es) p n
      = (Except.ok (computeChallenge es p n == p.challenge), .Consumed) := by
  simp [ProofVerifier.verify, verifyResult, h]

/-- Witness for C2 at the empty registry and empty proof. -/
theorem c2_verify_is_challenge_equality_witness :
    pEmpty.subProofs.length = ([] : List VerifierEntry).length ∧
    ProofVerifier.verify (.Building []) pEmpty nW
      = (Except.ok (computeChallenge [] pEmpty nW == pEmpty.challenge), .Consumed) :=
  ⟨rfl, c2_verify_is_challenge_equality [] pEmpty nW rfl⟩

/-- C3: when verification completes (structure matches) and the recomputed
challenge differs from the embedded one, the FFI verify entry point writes
`false` through `valid_p` and returns `Success`: cryptographic invalidity
is an outcome, not an error. -/
theorem c3_invalid_proof_is_success_false (es : List VerifierEntry) (p : Proof) (n : Nonce)
    (cell : Bool) (h1 : p.subProofs.length = es.length)
    (h2 : computeChallenge es p n ≠ p.challenge) :
    indy_crypto_cl_proof_verifier_verify (some (.Building es)) (some p) (some n) true cell
      = (ErrorCode.Success, none, false) := by
  have hb : (computeChallenge es p n == p.challenge) = false := beq_eq_false_iff_ne.mpr h2
  simp [indy_crypto_cl_proof_verifier_verify, ProofVerifier.verify, verifyResult, h1, hb]

/-- Witness for C3: the empty proof with embedded challenge 0 against the
empty registry, whose recomputed challenge is nonzero. -/
theorem c3_invalid_proof_is_success_false_witness :
    pEmpty.subProofs.length = ([] : List VerifierEntry).length ∧
    computeChallenge [] pEmpty nW ≠ pEmpty.challenge ∧
    indy_crypto_cl_proof_verifier_verify (some (.Building [])) (some pEmpty) (some nW) true true
      = (ErrorCode.Success, none, false) :=
  ⟨rfl, by decide, c3_invalid_proof_is_success_false [] pEmpty nW true rfl (by decide)⟩

/-- C4: every `verify` call moves the verifier to the `Consumed` state, and
a second `verify` on the resulting instance fails with
`VerifierAlreadyConsumed`, whatever the arguments of either call. -/
theorem c4_second_verify_already_consumed (st : ProofVerifier) (p : Proof) (n : Nonce)
    (p2 : Proof) (n2 : Nonce) :
    (st.verify p n).2 = ProofVerifier.Consumed ∧
    (((st.verify p n).2).verify p2 n2).1 = Except.error CryptoError.VerifierAlreadyConsumed := by
  cases st <;> exact ⟨rfl, rfl⟩

/-- C6: two `verify` invocations over the same registered
sub-proof-request sequence, the same proof and the same nonce yield the
same result: any two verifiers obtained by registering the same request
sequence verify identically. -/
theorem c6_verify_deterministic (reqs : List AddRequest) (p : Proof) (n : Nonce)
    (st st' : ProofVerifier) (h1 : registerAll reqs = Except.ok st)
    (h2 : registerAll reqs = Except.ok st') :
    st.verify p n = st'.verify p n := by
  rw [h1] at h2
  injection h2 with h
  rw [h]

/-- Witness for C6 at the empty request sequence. -/
theorem c6_verify_deterministic_witness :
    registerAll [] = Except.ok (ProofVerifier.Building []) ∧
    ProofVerifier.verify (.Building []) pEmpty nW = ProofVerifier.verify (.Building []) pEmpty nW :=
  ⟨rfl, c6_verify_deterministic [] pEmpty nW (.Building []) (.Building []) rfl rfl⟩

/-- C7 counterexample: a call whose `proof_verifier_p` out-pointer is null
fails with `CommonInvalidParam1`, not `Success`, although no allocation
failure is involved — so "never fails except on allocation failure" does
not hold of the FFI entry point over all calls. -/
theorem c7_null_out_pointer_not_success :
    (indy_crypto_cl_verifier_new_proof_verifier false).1 ≠ ErrorCode.Success := by
  decide

/-- C7 (amended): every call whose `proof_verifier_p` out-pointer is valid
stores a fresh empty verifier and reports `Success` (allocation failure
being outside the model, per the spec the core constructor cannot fail
otherwise). -/
theorem c7_new_proof_verifier_succeeds :
    indy_crypto_cl_verifier_new_proof_verifier true
      = (ErrorCode.Success, some (ProofVerifier.Building [])) :=
  rfl

/-- C8: when a referenced attribute is absent from the schema,
`add_sub_proof_request` fails with `AttributeNotFoundInSchema` and the
verifier behind the FFI handle still holds exactly the entries it held
before the call — the failed add appends nothing. -/
theorem c8_attr_missing_appends_nothing (es : List VerifierEntry) (kid : String)
    (spr : SubProofRequest) (schema : CredentialSchema) (pk : CredentialPublicKey)
    (rkp : Option RevocationKeyPublic) (rr : Option RevocationRegistry) (a : String)
    (ha : a ∈ referencedAttrs spr) (hna : schema.attrs.contains a = false) :
    ProofVerifier.add_sub_proof_request (.Building es) kid spr schema pk rkp rr
      = Except.error CryptoError.AttributeNotFoundInSchema ∧
    (indy_crypto_cl_proof_verifier_add_sub_proof_request (some (.Building es)) (some kid)
      (some spr) (some schema) (some pk) rkp rr).2 = some (ProofVerifier.Building es) := by
  have hna' : a ∉ schema.attrs := by simpa using hna
  have hni : ¬ ∀ x ∈ referencedAttrs spr, x ∈ schema.attrs := fun hf => hna' (hf a ha)
  constructor
  · simp [ProofVerifier.add_sub_proof_request, hni]
  · simp [indy_crypto_cl_proof_verifier_add_sub_proof_request,
      ProofVerifier.add_sub_proof_request, hni]

/-- Witness for C8: requesting `age` against a schema holding only `name`. -/
theorem c8_attr_missing_appends_nothing_witness :
    ageAttr ∈ referencedAttrs sprAge ∧ schemaNoAge.attrs.contains ageAttr = false ∧
    ProofVerifier.add_sub_proof_request (.Building []) keyIdW sprAge schemaNoAge pkW none none
      = Except.error CryptoError.AttributeNotFoundInSchema ∧
    (indy_crypto_cl_proof_verifier_add_sub_proof_request (some (.Building [])) (some keyIdW)
      (some sprAge) (some schemaNoAge) (some pkW) none none).2
      = some (ProofVerifier.Building []) := by
  refine ⟨by decide, by decide, ?_⟩
  exact c8_attr_missing_appends_nothing [] keyIdW sprAge schemaNoAge pkW none none ageAttr
    (by decide) (by decide)

/-- C9: whenever the four pointer arguments of the FFI verify entry point
pass validation, the verifier handle's heap slot is freed before the call
returns, on every path — inner `Ok true`, `Ok false`, or error alike. -/
theorem c9_verify_always_frees_handle (st : ProofVerifier) (p : Proof) (n : Nonce)
    (cell : Bool) :
    (indy_crypto_cl_proof_verifier_verify (some st) (some p) (some n) true cell).2.1 = none := by
  unfold indy_crypto_cl_proof_verifier_verify
  cases h : (ProofVerifier.verify st p n).1 <;> simp [h]

/-- C10: when the inner verification returns an error, the FFI verify
entry point leaves the `valid_p` cell at its previous value and returns
only the mapped error code (the cell is written solely on `Ok`). -/
theorem c10_error_leaves_valid_cell (st : ProofVerifier) (p : Proof) (n : Nonce)
    (cell : Bool) (e : CryptoError) (h : (st.verify p n).1 = Except.error e) :
    indy_crypto_cl_proof_verifier_verify (some st) (some p) (some n) true cell
      = (to_error_code e, none, cell) := by
  simp [indy_crypto_cl_proof_verifier_verify, h]

/-- Witness for C10: verifying a consumed instance errors and leaves the
cell holding `true` untouched. -/
theorem c10_error_leaves_valid_cell_witness :
    (ProofVerifier.Consumed.verify pEmpty nW).1
      = Except.error CryptoError.VerifierAlreadyConsumed ∧
    indy_crypto_cl_proof_verifier_verify (some .Consumed) (some pEmpty) (some nW) true true
      = (to_error_code CryptoError.VerifierAlreadyConsumed, none, true) :=
  ⟨rfl, c10_error_leaves_valid_cell .Consumed pEmpty nW true CryptoError.VerifierAlreadyConsumed rfl⟩

end IndyCrypto
